import Mathlib

/-!
Verification of the configuration module of the ecosystem-monitoring repository
(src/config.py) against its natural-language specification.

The source file is a constants module: it fixes the directory layout, the
detection/audio thresholds, the alert policy, the presentation and operational
settings, and exposes a `print_config` routine.  The specification additionally
describes a `load()` operation that validates the record and bootstraps the
directory layout; the validation/lookup machinery is not present under `src/`,
so those parts are modelled from the specification (each such definition is
marked `Modelled from the spec:` in its doc comment).  Everything else is a
direct shallow embedding of src/config.py.

Conventions of the embedding:
* Python floats that carry probabilities/ratios are embedded as `ℚ`.
* Python ints are embedded as `Int` (class ids and color channels as `Nat`).
* Filesystem paths are lists of path segments relative to `BASE_DIR`
  (the base directory itself exists by construction: the module file lives
  in it).  A filesystem state is a finite association list from path to
  entry kind, and `Path.mkdir(parents=True, exist_ok=True)` is modelled by
  creating every missing initial segment, failing when a segment is
  obstructed by a regular file.
* `print_config` writes a fixed sequence of lines; it is embedded as a pure
  function returning that list of lines.
-/

namespace EcoConfig

/-- The configuration record: one field per module-level setting of
src/config.py (path constants are kept separately, as segment lists). -/
structure ConfigRecord where
  YOLO_MODEL : String
  YOLO_CONFIDENCE_THRESHOLD : ℚ
  YOLO_IOU_THRESHOLD : ℚ
  ANIMAL_CLASSES : List (Nat × String)
  VIDEO_FPS_SAMPLE : Int
  VIDEO_RESIZE_FACTOR : ℚ
  YAMNET_MODEL_URL : String
  YAMNET_SAMPLE_RATE : Int
  AUDIO_CONFIDENCE_THRESHOLD : ℚ
  NATURE_SOUND_CLASSES : List String
  ALERT_MIN_ANIMALS : Int
  ALERT_MAX_ANIMALS : Int
  ALERT_RARE_SPECIES : List String
  ALERT_ACTIVITY_DROP : ℚ
  ALERT_ACTIVITY_SPIKE : ℚ
  FIGURE_SIZE : Int × Int
  FIGURE_DPI : Int
  COLOR_PALETTE : String
  BBOX_COLORS : List (String × (Nat × Nat × Nat))
  EXPORT_FORMAT : String
  DATETIME_FORMAT : String
  SAVE_VISUALIZATIONS : Bool
  IMAGE_FORMAT : String
  LOG_LEVEL : String
  SAVE_LOGS : Bool
  USE_GPU : Bool
  BATCH_SIZE : Int
  NUM_WORKERS : Int
  TIMEZONE : String
  REPORT_LANGUAGE : String
  ALERT_EMAIL : Option String
  TELEGRAM_BOT_TOKEN : Option String
  TELEGRAM_CHAT_ID : Option String
  VERSION : String
  PROJECT_NAME : String
  PROJECT_DESCRIPTION : String
  deriving DecidableEq

/-- The record defined by the constants of src/config.py (lines 37-194). -/
def defaultConfig : ConfigRecord where
  YOLO_MODEL := "yolov8n.pt"
  YOLO_CONFIDENCE_THRESHOLD := mkRat 1 4
  YOLO_IOU_THRESHOLD := mkRat 9 20
  ANIMAL_CLASSES :=
    [(14, "bird"), (15, "cat"), (16, "dog"), (17, "horse"), (18, "sheep"),
     (19, "cow"), (20, "elephant"), (21, "bear"), (22, "zebra"), (23, "giraffe")]
  VIDEO_FPS_SAMPLE := 2
  VIDEO_RESIZE_FACTOR := 1
  YAMNET_MODEL_URL := "https://tfhub.dev/google/yamnet/1"
  YAMNET_SAMPLE_RATE := 16000
  AUDIO_CONFIDENCE_THRESHOLD := mkRat 3 10
  NATURE_SOUND_CLASSES :=
    ["Bird", "Bird vocalization", "Bird flight", "Chirp", "Tweet", "Squawk",
     "Animal", "Domestic animals", "Wild animals", "Insect", "Cricket",
     "Frog", "Wind", "Rain", "Stream", "Ocean", "Thunder"]
  ALERT_MIN_ANIMALS := 10
  ALERT_MAX_ANIMALS := 100
  ALERT_RARE_SPECIES := ["bear", "elephant", "giraffe", "zebra"]
  ALERT_ACTIVITY_DROP := mkRat 1 2
  ALERT_ACTIVITY_SPIKE := 2
  FIGURE_SIZE := (15, 8)
  FIGURE_DPI := 100
  COLOR_PALETTE := "viridis"
  BBOX_COLORS :=
    [("bird", (0, 255, 0)), ("bear", (255, 0, 0)),
     ("deer", (0, 255, 255)), ("default", (255, 255, 0))]
  EXPORT_FORMAT := "csv"
  DATETIME_FORMAT := "%Y-%m-%d_%H-%M-%S"
  SAVE_VISUALIZATIONS := true
  IMAGE_FORMAT := "png"
  LOG_LEVEL := "INFO"
  SAVE_LOGS := true
  USE_GPU := true
  BATCH_SIZE := 16
  NUM_WORKERS := 4
  TIMEZONE := "UTC"
  REPORT_LANGUAGE := "ru"
  ALERT_EMAIL := none
  TELEGRAM_BOT_TOKEN := none
  TELEGRAM_CHAT_ID := none
  VERSION := "1.0.0"
  PROJECT_NAME := "Ecosystem Monitoring System"
  PROJECT_DESCRIPTION := "Система мониторинга экосистемы с использованием ML"

/-! ### Filesystem layout (src/config.py lines 17-31, 159) -/

/-- A path, as segments relative to `BASE_DIR`. -/
abbrev Path := List String

/-- `DATA_DIR = BASE_DIR / "data"` (line 20). -/
def DATA_DIR : Path := ["data"]

/-- `VIDEO_DIR = DATA_DIR / "videos"` (line 21). -/
def VIDEO_DIR : Path := DATA_DIR ++ ["videos"]

/-- `AUDIO_DIR = DATA_DIR / "audio"` (line 22). -/
def AUDIO_DIR : Path := DATA_DIR ++ ["audio"]

/-- `IMAGES_DIR = DATA_DIR / "images"` (line 23). -/
def IMAGES_DIR : Path := DATA_DIR ++ ["images"]

/-- `RESULTS_DIR = DATA_DIR / "results"` (line 24). -/
def RESULTS_DIR : Path := DATA_DIR ++ ["results"]

/-- `MODELS_DIR = BASE_DIR / "models"` (line 27). -/
def MODELS_DIR : Path := ["models"]

/-- `LOG_FILE = BASE_DIR / 'ecosystem_monitor.log'` (line 159). -/
def LOG_FILE : Path := ["ecosystem_monitor.log"]

/-- The directories created by the bootstrap loop, in the loop's order
(line 30). -/
def targetDirs : List Path :=
  [DATA_DIR, VIDEO_DIR, AUDIO_DIR, IMAGES_DIR, RESULTS_DIR, MODELS_DIR]

deriving instance DecidableEq for Except

/-- Kind of an existing filesystem entry. -/
inductive Entry where
  | dir : Entry
  | file : Entry
  deriving DecidableEq

/-- A filesystem state: a finite association list from path to entry kind.
A path not in the list is absent. -/
abbrev FsState := List (Path × Entry)

/-- The kind of the entry at `p`, if any. -/
def fsStatus (fs : FsState) (p : Path) : Option Entry :=
  match fs.find? (fun e => decide (e.1 = p)) with
  | some e => some e.2
  | none => none

/-- The nonempty initial segments of a path, shortest first: the chain of
ancestors `mkdir(parents=True)` walks. -/
def initSegsOf : Path → List Path
  | [] => []
  | x :: xs => [x] :: (initSegsOf xs).map (fun q => x :: q)

/-- Errors of the configuration provider: a validation failure naming the
offending field, or a filesystem failure naming the obstructed path. -/
inductive ConfigError where
  | validation : String → ConfigError
  | filesystem : Path → ConfigError
  deriving DecidableEq

/-- One `mkdir` step with `exist_ok=True`: an existing directory is accepted
silently, an obstructing regular file is an error, an absent path is created. -/
def mkdirStep (fs : FsState) (p : Path) : Except ConfigError FsState :=
  match fsStatus fs p with
  | some Entry.dir => Except.ok fs
  | some Entry.file => Except.error (ConfigError.filesystem p)
  | none => Except.ok ((p, Entry.dir) :: fs)

/-- Run `mkdirStep` on each path of the list in order, stopping at the first
error. -/
def mkdirSeq : FsState → List Path → Except ConfigError FsState
  | fs, [] => Except.ok fs
  | fs, p :: ps =>
    match mkdirStep fs p with
    | Except.error e => Except.error e
    | Except.ok fs2 => mkdirSeq fs2 ps

/-- `directory.mkdir(parents=True, exist_ok=True)` (line 31): create every
missing ancestor, then the directory itself. -/
def mkdirParents (fs : FsState) (p : Path) : Except ConfigError FsState :=
  mkdirSeq fs (initSegsOf p)

/-- Run `mkdirParents` on each directory of the list in order. -/
def bootstrapSeq : FsState → List Path → Except ConfigError FsState
  | fs, [] => Except.ok fs
  | fs, d :: ds =>
    match mkdirParents fs d with
    | Except.error e => Except.error e
    | Except.ok fs2 => bootstrapSeq fs2 ds

/-- The directory bootstrap loop of src/config.py lines 30-31. -/
def bootstrapDirs (fs : FsState) : Except ConfigError FsState :=
  bootstrapSeq fs targetDirs

/-! ### Validation (modelled from the spec) -/

/-- The enumerated export formats (src/config.py line 138 comment). -/
def exportFormats : List String := ["csv", "json", "excel"]

/-- The enumerated image formats (src/config.py line 147 comment). -/
def imageFormats : List String := ["png", "jpg"]

/-- The enumerated log levels (src/config.py line 153 comment). -/
def logLevels : List String := ["DEBUG", "INFO", "WARNING", "ERROR"]

/-- The validation contract of the spec, as one proposition: thresholds in
[0,1], non-negative min ≤ max, positive sample rate / batch size / worker
count, enumerated formats and log level, positive activity ratios, and a
`default` entry in the color mapping. -/
def validConditions (c : ConfigRecord) : Prop :=
  (0 ≤ c.YOLO_CONFIDENCE_THRESHOLD ∧ c.YOLO_CONFIDENCE_THRESHOLD ≤ 1) ∧
  (0 ≤ c.YOLO_IOU_THRESHOLD ∧ c.YOLO_IOU_THRESHOLD ≤ 1) ∧
  (0 ≤ c.AUDIO_CONFIDENCE_THRESHOLD ∧ c.AUDIO_CONFIDENCE_THRESHOLD ≤ 1) ∧
  (0 ≤ c.ALERT_MIN_ANIMALS) ∧
  (c.ALERT_MIN_ANIMALS ≤ c.ALERT_MAX_ANIMALS) ∧
  (0 < c.YAMNET_SAMPLE_RATE) ∧
  (0 < c.BATCH_SIZE) ∧
  (0 < c.NUM_WORKERS) ∧
  (c.EXPORT_FORMAT ∈ exportFormats) ∧
  (c.IMAGE_FORMAT ∈ imageFormats) ∧
  (c.LOG_LEVEL ∈ logLevels) ∧
  (0 < c.ALERT_ACTIVITY_DROP) ∧
  (0 < c.ALERT_ACTIVITY_SPIKE) ∧
  ((c.BBOX_COLORS.find? (fun e => e.1 == "default")).isSome = true)

instance (c : ConfigRecord) : Decidable (validConditions c) := by
  unfold validConditions; infer_instance

/-- The individual validation checks, in order, each named after the
field it inspects and paired with its (decidable) verdict. -/
def checks (c : ConfigRecord) : List (String × Bool) :=
  [("YOLO_CONFIDENCE_THRESHOLD",
      decide (0 ≤ c.YOLO_CONFIDENCE_THRESHOLD ∧ c.YOLO_CONFIDENCE_THRESHOLD ≤ 1)),
   ("YOLO_IOU_THRESHOLD",
      decide (0 ≤ c.YOLO_IOU_THRESHOLD ∧ c.YOLO_IOU_THRESHOLD ≤ 1)),
   ("AUDIO_CONFIDENCE_THRESHOLD",
      decide (0 ≤ c.AUDIO_CONFIDENCE_THRESHOLD ∧ c.AUDIO_CONFIDENCE_THRESHOLD ≤ 1)),
   ("ALERT_MIN_ANIMALS", decide (0 ≤ c.ALERT_MIN_ANIMALS)),
   ("ALERT_MAX_ANIMALS", decide (c.ALERT_MIN_ANIMALS ≤ c.ALERT_MAX_ANIMALS)),
   ("YAMNET_SAMPLE_RATE", decide (0 < c.YAMNET_SAMPLE_RATE)),
   ("BATCH_SIZE", decide (0 < c.BATCH_SIZE)),
   ("NUM_WORKERS", decide (0 < c.NUM_WORKERS)),
   ("EXPORT_FORMAT", decide (c.EXPORT_FORMAT ∈ exportFormats)),
   ("IMAGE_FORMAT", decide (c.IMAGE_FORMAT ∈ imageFormats)),
   ("LOG_LEVEL", decide (c.LOG_LEVEL ∈ logLevels)),
   ("ALERT_ACTIVITY_DROP", decide (0 < c.ALERT_ACTIVITY_DROP)),
   ("ALERT_ACTIVITY_SPIKE", decide (0 < c.ALERT_ACTIVITY_SPIKE)),
   ("BBOX_COLORS", (c.BBOX_COLORS.find? (fun e => e.1 == "default")).isSome)]

/-- Modelled from the spec: the validation step of `load()` — no validation
code exists under src/.  Each invariant of the spec's validation contract is
checked in turn; the first violated one yields a `ConfigurationError`
(validation kind) naming the offending field. -/
def validate (c : ConfigRecord) : Except ConfigError Unit :=
  match (checks c).find? (fun p => !p.2) with
  | some p => Except.error (ConfigError.validation p.1)
  | none => Except.ok ()

/-- Modelled from the spec: `load()` applied to a candidate record — no
load function exists under src/.  It validates the record, then bootstraps
the directory layout; it either yields the fully valid record together with
the updated filesystem state, or fails outright. -/
def loadWith (c : ConfigRecord) (fs : FsState) :
    Except ConfigError (ConfigRecord × FsState) :=
  match validate c with
  | Except.error e => Except.error e
  | Except.ok _ =>
    match bootstrapDirs fs with
    | Except.error e => Except.error e
    | Except.ok fs2 => Except.ok (c, fs2)

/-- Modelled from the spec: `load()` proper — the record it produces is the
one defined by the constants of src/config.py. -/
def load (fs : FsState) : Except ConfigError (ConfigRecord × FsState) :=
  loadWith defaultConfig fs

/-- Two consecutive runs of `load()`, the second against the filesystem state
the first one left behind. -/
def loadTwice (fs : FsState) : Except ConfigError (ConfigRecord × FsState) :=
  match load fs with
  | Except.error e => Except.error e
  | Except.ok p => load p.2

/-! ### Species-color lookup (modelled from the spec) -/

/-- Modelled from the spec: the fallback color lookup contract
(`BBOX_COLORS.get(species, BBOX_COLORS["default"])`) — only the mapping
itself (src/config.py lines 127-132) exists under src/. -/
def bboxColor (c : ConfigRecord) (species : String) : Option (Nat × Nat × Nat) :=
  match c.BBOX_COLORS.find? (fun e => e.1 == species) with
  | some e => some e.2
  | none =>
    match c.BBOX_COLORS.find? (fun e => e.1 == "default") with
    | some e => some e.2
    | none => none

/-! ### print_config (src/config.py lines 197-210) -/

/-- The separator line `'='*60` (lines 201, 203, 210). -/
def sepLine : String := String.mk (List.replicate 60 '=')

/-- Rendering of a rational the way an interpolated number appears: as
`num/den` text (the exact digits are immaterial to the claims). -/
def ratStr (q : ℚ) : String := q.num.repr ++ "/" ++ q.den.repr

/-- Rendering of a boolean the way Python interpolates it. -/
def boolStr (b : Bool) : String := cond b "True" "False"

/-- `print_config()` (lines 197-210), embedded as the list of lines it
writes.  The body is a fixed sequence of f-string writes over always-defined
fields, so the embedding is a total function: no input can make it raise.
`BASE_DIR` is passed in as its rendered text. -/
def printConfig (c : ConfigRecord) (baseDirStr : String) : List String :=
  [sepLine,
   c.PROJECT_NAME ++ " v" ++ c.VERSION,
   sepLine,
   "Базовая директория: " ++ baseDirStr,
   "Директория данных: " ++ baseDirStr ++ "/data",
   "Модель YOLO: " ++ c.YOLO_MODEL,
   "Порог уверенности YOLO: " ++ ratStr c.YOLO_CONFIDENCE_THRESHOLD,
   "Порог уверенности аудио: " ++ ratStr c.AUDIO_CONFIDENCE_THRESHOLD,
   "Использование GPU: " ++ boolStr c.USE_GPU,
   sepLine]

/-- `startsWithPat pat s`: the character list `s` begins with `pat`. -/
def startsWithPat : List Char → List Char → Bool
  | [], _ => true
  | _ :: _, [] => false
  | p :: ps, c :: cs => p == c && startsWithPat ps cs

/-- `hasRun pat s`: `pat` occurs contiguously somewhere in `s`. -/
def hasRun (pat : List Char) : List Char → Bool
  | [] => startsWithPat pat []
  | c :: cs => startsWithPat pat (c :: cs) || hasRun pat cs

/-- `strMentions pat s`: the string `s` contains `pat` as a substring. -/
def strMentions (pat s : String) : Bool := hasRun pat.toList s.toList

/-! ### Descendant-of-base paths -/

/-- `absPath b p`: the absolute form of the base-relative path `p` under the
base directory `b`. -/
def absPath (b : List String) (p : Path) : List String := b ++ p

/-- `p` lies strictly below the base directory `b`. -/
def isWithinBase (b p : List String) : Prop := b <+: p ∧ p ≠ b

/-- All base-relative paths the module derives from `BASE_DIR`
(lines 20-27 and 159). -/
def allConfigPaths : List Path :=
  [DATA_DIR, VIDEO_DIR, AUDIO_DIR, IMAGES_DIR, RESULTS_DIR, MODELS_DIR, LOG_FILE]

/-! ### Concrete inputs used by the witnesses and counterexamples -/

/-- A record with an out-of-range YOLO confidence threshold. -/
def badThresholdConfig : ConfigRecord :=
  { defaultConfig with YOLO_CONFIDENCE_THRESHOLD := mkRat 3 2 }

/-- A record with an export format outside the enumerated set. -/
def badFormatConfig : ConfigRecord :=
  { defaultConfig with EXPORT_FORMAT := "xml" }

/-- A record with inverted alert bounds (min = 50 > max = 10). -/
def badBoundsConfig : ConfigRecord :=
  { defaultConfig with ALERT_MIN_ANIMALS := 50, ALERT_MAX_ANIMALS := 10 }

/-- A filesystem state in which every target directory already exists. -/
def fsAllDirs : FsState := targetDirs.map (fun d => (d, Entry.dir))

/-- A filesystem state in which the data directory path is a regular file. -/
def fsDataFile : FsState := [(DATA_DIR, Entry.file)]

/-! ## Helper lemmas -/

lemma fsStatus_cons (q p : Path) (e : Entry) (fs : FsState) :
    fsStatus ((q, e) :: fs) p = if q = p then some e else fsStatus fs p := by
  by_cases h : q = p <;> simp [fsStatus, List.find?, h]

lemma mkdirStep_ok_preserves_file {fs fs2 : FsState} {q p : Path}
    (h : mkdirStep fs q = Except.ok fs2) (hp : fsStatus fs p = some Entry.file) :
    fsStatus fs2 p = some Entry.file := by
  unfold mkdirStep at h
  split at h
  · cases h; exact hp
  · cases h
  · cases h
    rename_i hq
    rw [fsStatus_cons]
    by_cases hpq : q = p
    · rw [hpq] at hq; rw [hq] at hp; cases hp
    · simp [hpq, hp]

lemma mkdirStep_err_shape {fs : FsState} {q : Path} {e : ConfigError}
    (h : mkdirStep fs q = Except.error e) : e = ConfigError.filesystem q := by
  unfold mkdirStep at h
  split at h
  · cases h
  · cases h; rfl
  · cases h

lemma mkdirStep_of_file {fs : FsState} {p : Path}
    (hp : fsStatus fs p = some Entry.file) :
    mkdirStep fs p = Except.error (ConfigError.filesystem p) := by
  unfold mkdirStep
  rw [hp]

lemma mkdirSeq_ok_preserves_file {qs : List Path} {fs fs2 : FsState} {p : Path}
    (h : mkdirSeq fs qs = Except.ok fs2) (hp : fsStatus fs p = some Entry.file) :
    fsStatus fs2 p = some Entry.file := by
  induction qs generalizing fs with
  | nil => cases h; exact hp
  | cons q qs ih =>
    unfold mkdirSeq at h
    split at h
    · cases h
    · rename_i fs1 hq
      exact ih h (mkdirStep_ok_preserves_file hq hp)

lemma mkdirSeq_err_shape {qs : List Path} {fs : FsState} {e : ConfigError}
    (h : mkdirSeq fs qs = Except.error e) : ∃ q, e = ConfigError.filesystem q := by
  induction qs generalizing fs with
  | nil => cases h
  | cons q qs ih =>
    unfold mkdirSeq at h
    split at h
    · rename_i hq
      cases h
      exact ⟨q, mkdirStep_err_shape hq⟩
    · rename_i fs1 hq
      exact ih h

lemma mkdirSeq_mem_file_err {qs : List Path} {fs : FsState} {p : Path}
    (hmem : p ∈ qs) (hp : fsStatus fs p = some Entry.file) :
    ∃ q, mkdirSeq fs qs = Except.error (ConfigError.filesystem q) := by
  induction qs generalizing fs with
  | nil => cases hmem
  | cons q qs ih =>
    unfold mkdirSeq
    cases hstep : mkdirStep fs q with
    | error e =>
      have he := mkdirStep_err_shape hstep
      subst he
      exact ⟨q, by simp [hstep]⟩
    | ok fs1 =>
      rcases List.mem_cons.mp hmem with rfl | hmem2
      · rw [mkdirStep_of_file hp] at hstep; cases hstep
      · simpa using ih hmem2 (mkdirStep_ok_preserves_file hstep hp)

lemma mkdirSeq_all_dir {qs : List Path} {fs : FsState}
    (h : ∀ q ∈ qs, fsStatus fs q = some Entry.dir) :
    mkdirSeq fs qs = Except.ok fs := by
  induction qs with
  | nil => rfl
  | cons q qs ih =>
    have hq : mkdirStep fs q = Except.ok fs := by
      unfold mkdirStep
      rw [h q (List.mem_cons_self q qs)]
    unfold mkdirSeq
    rw [hq]
    exact ih (fun q hm => h q (List.mem_cons_of_mem _ hm))

lemma self_mem_initSegsOf {p : Path} (h : p ≠ []) : p ∈ initSegsOf p := by
  induction p with
  | nil => exact absurd rfl h
  | cons x xs ih =>
    cases xs with
    | nil => simp [initSegsOf]
    | cons y ys =>
      unfold initSegsOf
      refine List.mem_cons_of_mem _ ?_
      exact List.mem_map_of_mem _ (ih (by simp))

lemma bootstrapSeq_all_dir {ds : List Path} {fs : FsState}
    (h : ∀ d ∈ ds, ∀ q ∈ initSegsOf d, fsStatus fs q = some Entry.dir) :
    bootstrapSeq fs ds = Except.ok fs := by
  induction ds with
  | nil => rfl
  | cons d ds ih =>
    have hd : mkdirParents fs d = Except.ok fs :=
      mkdirSeq_all_dir (h d (List.mem_cons_self d ds))
    unfold bootstrapSeq
    rw [hd]
    exact ih (fun d2 hm => h d2 (List.mem_cons_of_mem _ hm))

lemma bootstrapSeq_mem_file_err {ds : List Path} {fs : FsState} {p : Path}
    (hmem : p ∈ ds) (hne : p ≠ []) (hp : fsStatus fs p = some Entry.file) :
    ∃ q, bootstrapSeq fs ds = Except.error (ConfigError.filesystem q) := by
  induction ds generalizing fs with
  | nil => cases hmem
  | cons d ds ih =>
    unfold bootstrapSeq
    cases hstep : mkdirParents fs d with
    | error e =>
      rcases mkdirSeq_err_shape hstep with ⟨q, rfl⟩
      exact ⟨q, by simp [hstep]⟩
    | ok fs1 =>
      rcases List.mem_cons.mp hmem with rfl | hmem2
      · rcases mkdirSeq_mem_file_err (self_mem_initSegsOf hne) hp with ⟨q, hq⟩
        rw [mkdirParents] at hstep
        rw [hq] at hstep
        cases hstep
      · simpa using ih hmem2 (mkdirSeq_ok_preserves_file hstep hp)

lemma validate_ok_iff (c : ConfigRecord) :
    validate c = Except.ok () ↔ validConditions c := by
  unfold validate
  split
  · rename_i p hp
    constructor
    · intro h; cases h
    · intro hv
      exfalso
      have hmem := List.mem_of_find?_eq_some hp
      have hfalse : p.2 = false := by
        have := List.find?_some hp
        simpa using this
      unfold validConditions at hv
      unfold checks at hmem
      simp only [List.mem_cons, List.not_mem_nil, or_false] at hmem
      obtain ⟨h1, h2, h3, h4, h5, h6, h7, h8, h9, h10, h11, h12, h13, h14⟩ := hv
      rcases hmem with h | h | h | h | h | h | h | h | h | h | h | h | h | h <;>
        (rw [h] at hfalse; simp_all)
  · rename_i hn
    simp only [true_iff]
    rw [List.find?_eq_none] at hn
    unfold validConditions
    unfold checks at hn
    simp only [List.mem_cons, List.not_mem_nil, or_false, forall_eq_or_imp, forall_eq,
      Bool.not_eq_true', Bool.not_eq_false, decide_eq_true_eq] at hn
    tauto

lemma validate_cases (c : ConfigRecord) :
    validate c = Except.ok () ∨
      ∃ f, validate c = Except.error (ConfigError.validation f) := by
  unfold validate
  split
  · right; exact ⟨_, rfl⟩
  · left; rfl

lemma validate_err_of_not {c : ConfigRecord} (h : ¬ validConditions c) :
    ∃ f, validate c = Except.error (ConfigError.validation f) := by
  rcases validate_cases c with hok | he
  · exact absurd ((validate_ok_iff c).mp hok) h
  · exact he

lemma loadWith_ok_elim {c r : ConfigRecord} {fs fs2 : FsState}
    (h : loadWith c fs = Except.ok (r, fs2)) :
    r = c ∧ validConditions c := by
  unfold loadWith at h
  split at h
  · cases h
  · rename_i u hv
    split at h
    · cases h
    · rename_i fs3 hb
      cases h
      cases u
      exact ⟨rfl, (validate_ok_iff c).mp hv⟩

lemma loadWith_err_of_validate {c : ConfigRecord} {fs : FsState} {e : ConfigError}
    (h : validate c = Except.error e) : loadWith c fs = Except.error e := by
  unfold loadWith
  rw [h]

lemma loadWith_err_of_not {c : ConfigRecord} (fs : FsState)
    (h : ¬ validConditions c) :
    ∃ f, loadWith c fs = Except.error (ConfigError.validation f) := by
  rcases validate_err_of_not h with ⟨f, hf⟩
  exact ⟨f, loadWith_err_of_validate hf⟩

lemma validate_default_ok : validate defaultConfig = Except.ok () := by decide

/-! ## Claims -/

/-- C1: every probability/threshold field (YOLO confidence, YOLO IoU, audio
confidence) of a record yielded by `load()` lies in [0, 1], and loading a
record with such a field outside [0, 1] fails with a validation-kind
`ConfigurationError` before anything else runs. -/
theorem thresholds_validated_on_load (c : ConfigRecord) (fs : FsState) :
    (∀ r fs2, loadWith c fs = Except.ok (r, fs2) →
      (0 ≤ r.YOLO_CONFIDENCE_THRESHOLD ∧ r.YOLO_CONFIDENCE_THRESHOLD ≤ 1) ∧
      (0 ≤ r.YOLO_IOU_THRESHOLD ∧ r.YOLO_IOU_THRESHOLD ≤ 1) ∧
      (0 ≤ r.AUDIO_CONFIDENCE_THRESHOLD ∧ r.AUDIO_CONFIDENCE_THRESHOLD ≤ 1)) ∧
    (¬((0 ≤ c.YOLO_CONFIDENCE_THRESHOLD ∧ c.YOLO_CONFIDENCE_THRESHOLD ≤ 1) ∧
       (0 ≤ c.YOLO_IOU_THRESHOLD ∧ c.YOLO_IOU_THRESHOLD ≤ 1) ∧
       (0 ≤ c.AUDIO_CONFIDENCE_THRESHOLD ∧ c.AUDIO_CONFIDENCE_THRESHOLD ≤ 1)) →
      ∃ f, loadWith c fs = Except.error (ConfigError.validation f)) := by
  constructor
  · intro r fs2 h
    obtain ⟨hr, hv⟩ := loadWith_ok_elim h
    subst hr
    exact ⟨hv.1, hv.2.1, hv.2.2.1⟩
  · intro hn
    refine loadWith_err_of_not fs (fun hv => hn ⟨hv.1, hv.2.1, hv.2.2.1⟩)

/-- C1, witness: a record with YOLO confidence 3/2 is rejected with a
validation error. -/
theorem thresholds_validated_on_load_witness :
    ∃ f, loadWith badThresholdConfig [] = Except.error (ConfigError.validation f) :=
  (thresholds_validated_on_load badThresholdConfig []).2 (by decide)

/-- C2: when every target directory already exists as a directory, `load()`
succeeds and leaves the filesystem unchanged, and running it a second time
succeeds again with the directory layout still unchanged. -/
theorem load_idempotent_on_existing_dirs (fs : FsState)
    (hdir : ∀ p ∈ targetDirs, fsStatus fs p = some Entry.dir) :
    load fs = Except.ok (defaultConfig, fs) ∧
    loadTwice fs = Except.ok (defaultConfig, fs) := by
  have hsub : ∀ d ∈ targetDirs, ∀ q ∈ initSegsOf d, q ∈ targetDirs := by decide
  have hboot : bootstrapSeq fs targetDirs = Except.ok fs :=
    bootstrapSeq_all_dir (fun d hd q hq => hdir q (hsub d hd q hq))
  have h1 : load fs = Except.ok (defaultConfig, fs) := by
    unfold load loadWith bootstrapDirs
    rw [validate_default_ok, hboot]
  refine ⟨h1, ?_⟩
  unfold loadTwice
  rw [h1]
  exact h1

/-- C2, witness: on a filesystem where all six directories exist, both runs
succeed without change. -/
theorem load_idempotent_on_existing_dirs_witness :
    load fsAllDirs = Except.ok (defaultConfig, fsAllDirs) ∧
    loadTwice fsAllDirs = Except.ok (defaultConfig, fsAllDirs) :=
  load_idempotent_on_existing_dirs fsAllDirs (by decide)

/-- C3: when one of the target directory paths exists as a regular file,
`load()` fails with a filesystem-kind error. -/
theorem load_fails_on_file_obstruction (fs : FsState) (p : Path)
    (hmem : p ∈ targetDirs) (hfile : fsStatus fs p = some Entry.file) :
    ∃ q, load fs = Except.error (ConfigError.filesystem q) := by
  have hne : p ≠ [] := by
    have hall : ∀ d ∈ targetDirs, d ≠ [] := by decide
    exact hall p hmem
  rcases bootstrapSeq_mem_file_err hmem hne hfile with ⟨q, hq⟩
  refine ⟨q, ?_⟩
  unfold load loadWith bootstrapDirs
  rw [validate_default_ok, hq]

/-- C3, witness: a regular file at the data directory path makes `load()`
fail with a filesystem error. -/
theorem load_fails_on_file_obstruction_witness :
    ∃ q, load fsDataFile = Except.error (ConfigError.filesystem q) :=
  load_fails_on_file_obstruction fsDataFile DATA_DIR (by decide) (by decide)

/-- C4 (amended): `print_config` never raises — it is total and renders its
fixed ten-line output for every record, in particular when the optional
notification fields are unset — but it does not render those optional
fields at all: its output does not depend on them, so no placeholder (and
no empty-string rendering) for them appears. -/
theorem printConfig_total_ignores_optional (c : ConfigRecord) (b : String)
    (e t i : Option String) :
    (printConfig c b).length = 10 ∧
    printConfig { c with ALERT_EMAIL := e, TELEGRAM_BOT_TOKEN := t,
                         TELEGRAM_CHAT_ID := i } b = printConfig c b :=
  ⟨rfl, rfl⟩

/-- C4, counterexample: for the record of src/config.py — whose optional
notification fields are all unset — no line of the `print_config` output
contains a "not configured" placeholder: the optional fields are simply
never rendered, refuting the claimed placeholder rendering. -/
theorem printConfig_no_placeholder_rendered :
    defaultConfig.ALERT_EMAIL = none ∧
    defaultConfig.TELEGRAM_BOT_TOKEN = none ∧
    defaultConfig.TELEGRAM_CHAT_ID = none ∧
    (printConfig defaultConfig "/base").all
      (fun l => !(strMentions "not configured" l)) = true := by
  refine ⟨rfl, rfl, rfl, ?_⟩
  decide

/-- C5: an export format outside {csv, json, excel} fails validation at load
time with a validation-kind error, and likewise for the image format and the
log level; a successful `load()` yields values inside the enumerated sets
(nothing is silently defaulted). -/
theorem enumerated_formats_validated_on_load (c : ConfigRecord) (fs : FsState) :
    (c.EXPORT_FORMAT ∉ exportFormats →
      ∃ f, loadWith c fs = Except.error (ConfigError.validation f)) ∧
    (c.IMAGE_FORMAT ∉ imageFormats →
      ∃ f, loadWith c fs = Except.error (ConfigError.validation f)) ∧
    (c.LOG_LEVEL ∉ logLevels →
      ∃ f, loadWith c fs = Except.error (ConfigError.validation f)) ∧
    (∀ r fs2, loadWith c fs = Except.ok (r, fs2) →
      r.EXPORT_FORMAT ∈ exportFormats ∧ r.IMAGE_FORMAT ∈ imageFormats ∧
      r.LOG_LEVEL ∈ logLevels) := by
  refine ⟨?_, ?_, ?_, ?_⟩
  · intro hn
    exact loadWith_err_of_not fs (fun hv => hn hv.2.2.2.2.2.2.2.2.1)
  · intro hn
    exact loadWith_err_of_not fs (fun hv => hn hv.2.2.2.2.2.2.2.2.2.1)
  · intro hn
    exact loadWith_err_of_not fs (fun hv => hn hv.2.2.2.2.2.2.2.2.2.2.1)
  · intro r fs2 h
    obtain ⟨hr, hv⟩ := loadWith_ok_elim h
    subst hr
    exact ⟨hv.2.2.2.2.2.2.2.2.1, hv.2.2.2.2.2.2.2.2.2.1, hv.2.2.2.2.2.2.2.2.2.2.1⟩

/-- C5, witness: export format "xml" is rejected at load time. -/
theorem enumerated_formats_validated_on_load_witness :
    ∃ f, loadWith badFormatConfig [] = Except.error (ConfigError.validation f) :=
  (enumerated_formats_validated_on_load badFormatConfig []).1 (by decide)

/-- C6: every record yielded by `load()` has non-negative
`ALERT_MIN_ANIMALS ≤ ALERT_MAX_ANIMALS`, and a record violating this fails
validation. -/
theorem alert_bounds_validated_on_load (c : ConfigRecord) (fs : FsState) :
    (∀ r fs2, loadWith c fs = Except.ok (r, fs2) →
      0 ≤ r.ALERT_MIN_ANIMALS ∧ r.ALERT_MIN_ANIMALS ≤ r.ALERT_MAX_ANIMALS ∧
      0 ≤ r.ALERT_MAX_ANIMALS) ∧
    (¬(0 ≤ c.ALERT_MIN_ANIMALS ∧ c.ALERT_MIN_ANIMALS ≤ c.ALERT_MAX_ANIMALS) →
      ∃ f, loadWith c fs = Except.error (ConfigError.validation f)) := by
  constructor
  · intro r fs2 h
    obtain ⟨hr, hv⟩ := loadWith_ok_elim h
    subst hr
    have h1 := hv.2.2.2.1
    have h2 := hv.2.2.2.2.1
    exact ⟨h1, h2, le_trans h1 h2⟩
  · intro hn
    exact loadWith_err_of_not fs (fun hv => hn ⟨hv.2.2.2.1, hv.2.2.2.2.1⟩)

/-- C6, witness: min = 50 with max = 10 is rejected with a validation
error. -/
theorem alert_bounds_validated_on_load_witness :
    ∃ f, loadWith badBoundsConfig [] = Except.error (ConfigError.validation f) :=
  (alert_bounds_validated_on_load badBoundsConfig []).2 (by decide)

/-- C7: the species-color mapping of the loaded record contains a `default`
entry, and the color lookup for any species not listed in the mapping
returns the `default` color triple rather than failing. -/
theorem bbox_default_fallback :
    (defaultConfig.BBOX_COLORS.find? (fun e => e.1 == "default") =
      some ("default", (255, 255, 0))) ∧
    (∀ s, s ∉ defaultConfig.BBOX_COLORS.map Prod.fst →
      bboxColor defaultConfig s = some (255, 255, 0)) := by
  refine ⟨by decide, ?_⟩
  intro s hs
  have hnone : defaultConfig.BBOX_COLORS.find? (fun e => e.1 == s) = none := by
    rw [List.find?_eq_none]
    intro x hx
    simp only [Bool.not_eq_true, beq_eq_false_iff_ne, ne_eq]
    intro hxs
    exact hs (hxs ▸ List.mem_map_of_mem Prod.fst hx)
  unfold bboxColor
  rw [hnone]
  decide

/-- C7, witness: the unlisted species "deer-subspecies-x" gets the default
yellow triple. -/
theorem bbox_default_fallback_witness :
    bboxColor defaultConfig "deer-subspecies-x" = some (255, 255, 0) :=
  bbox_default_fallback.2 "deer-subspecies-x" (by decide)

/-- C8: in every record yielded by `load()`, the activity drop ratio is
strictly between 0 and 1, the spike ratio is above 1, and the audio sample
rate, batch size and worker count are positive integers. -/
theorem numeric_settings_of_loaded_record (fs fs2 : FsState) (r : ConfigRecord)
    (h : load fs = Except.ok (r, fs2)) :
    0 < r.ALERT_ACTIVITY_DROP ∧ r.ALERT_ACTIVITY_DROP < 1 ∧
    1 < r.ALERT_ACTIVITY_SPIKE ∧
    0 < r.YAMNET_SAMPLE_RATE ∧ 0 < r.BATCH_SIZE ∧ 0 < r.NUM_WORKERS := by
  have h2 : loadWith defaultConfig fs = Except.ok (r, fs2) := h
  have hr : r = defaultConfig := (loadWith_ok_elim h2).1
  subst hr
  decide

/-- C8, witness: a successful run of `load()` on a filesystem with all
directories present yields the source record, for which the bounds hold. -/
theorem numeric_settings_of_loaded_record_witness :
    0 < defaultConfig.ALERT_ACTIVITY_DROP ∧ defaultConfig.ALERT_ACTIVITY_DROP < 1 ∧
    1 < defaultConfig.ALERT_ACTIVITY_SPIKE ∧
    0 < defaultConfig.YAMNET_SAMPLE_RATE ∧ 0 < defaultConfig.BATCH_SIZE ∧
    0 < defaultConfig.NUM_WORKERS :=
  numeric_settings_of_loaded_record fsAllDirs fsAllDirs defaultConfig (by decide)

/-- C9: every species named in the rare-species alert set appears as a label
value of the detection class mapping. -/
theorem rare_species_labelled :
    ∀ s ∈ defaultConfig.ALERT_RARE_SPECIES,
      s ∈ defaultConfig.ANIMAL_CLASSES.map Prod.snd := by decide

/-- C9, witness: "bear" is both a rare species and a detection label. -/
theorem rare_species_labelled_witness :
    "bear" ∈ defaultConfig.ANIMAL_CLASSES.map Prod.snd :=
  rare_species_labelled "bear" (by decide)

/-- C10: every filesystem path the module derives — the six directories and
the log file — lies strictly below the base directory, whatever the base
directory is. -/
theorem paths_within_base (b : List String) :
    ∀ p ∈ allConfigPaths, isWithinBase b (absPath b p) := by
  intro p hp
  have hne : p ≠ [] := by
    have hall : ∀ q ∈ allConfigPaths, q ≠ [] := by decide
    exact hall p hp
  refine ⟨⟨p, rfl⟩, ?_⟩
  intro hcontra
  have hlen := congrArg List.length hcontra
  simp only [absPath, List.length_append] at hlen
  have : p.length = 0 := by omega
  exact hne (List.eq_nil_of_length_eq_zero this)

/-- C10, witness: the data directory lies below a sample base directory. -/
theorem paths_within_base_witness :
    isWithinBase ["base"] (absPath ["base"] DATA_DIR) :=
  paths_within_base ["base"] DATA_DIR (by decide)

end EcoConfig
